import Mathlib

/-!
Verification of the governance decision core of MCP-Enterprise-Automation.

The development shallowly embeds the three core components:
  * `governance_decision` (src/decision_resolver.py),
  * `check_policy_constraints` (src/policy_engine.py),
  * `get_approval_requirement` (src/approval_engine.py).

External collaborators (the NebulaGraph legality check and the Weaviate
stores) are modelled at their interface boundary: the resolver is
parametrised by the collaborator functions, and the two evaluators are
parametrised by the list of records their store returns, with the source
filters embedded explicitly.
-/

/-- Output shape of `check_process_legality` (src/nebulagraph_client.py):
a dict with keys `valid`, `approval_required`, `reason`. -/
structure ProcessLegalityResult where
  valid : Bool
  approval_required : Bool
  reason : String
deriving Repr, DecidableEq

/-- Output shape of `check_policy_constraints` (src/policy_engine.py):
`severity` is one of the strings BLOCK, REQUIRE_APPROVAL, ALLOW, and
`policies` is the list of matched policy texts in store-return order. -/
structure PolicyConstraintResult where
  severity : String
  policies : List String
deriving Repr, DecidableEq

/-- An HRPolicy record as stored in Weaviate and read by
`check_policy_constraints`: the fields the source filter and loop touch. -/
structure HRPolicyRecord where
  domain : String
  applies_to : String
  roles : List String
  severity : String
  policy_text : String
deriving Repr, DecidableEq

/-- An ApprovalPolicy record as stored in Weaviate and read by
`get_approval_requirement`. -/
structure ApprovalPolicyRecord where
  domain : String
  workflow : String
  action : String
  requested_by_role : String
  approver_roles : List String
  approval_level : Int
  auto_approve : Bool
  escalation_role : String
deriving Repr, DecidableEq

/-- Output shape of `get_approval_requirement` (src/approval_engine.py).
The Python function returns one of two dict shapes; keys absent in the
no-match shape are modelled as `none`. -/
structure ApprovalRequirement where
  approval_required : Bool
  auto_approve : Bool
  approver_roles : Option (List String)
  approval_level : Option Int
  escalation_role : Option String
deriving Repr, DecidableEq

/-- The `reason` field of a verdict: the source puts either a plain string
(process reason, or the ALLOWED message) or a list of policy texts there. -/
inductive Reason where
  | str (s : String)
  | list (l : List String)
deriving Repr, DecidableEq

/-- Final output of `governance_decision` (src/decision_resolver.py).
`approval` is present only on the NEEDS_APPROVAL branch, modelled as an
`Option` for the key being absent otherwise. -/
structure GovernanceVerdict where
  verdict : String
  reason : Reason
  authority : String
  approval : Option ApprovalRequirement
deriving Repr, DecidableEq

/-- Spec name for the authority of verdicts decided by the process-legality
collaborator, which this implementation identifies by the string
"NebulaGraph" (src/decision_resolver.py line 19). -/
def ProcessAuthority : String := "NebulaGraph"

/-- Spec name for the authority of verdicts decided by the policy
constraint evaluator, which this implementation identifies by the string
"Weaviate" (src/decision_resolver.py line 29). -/
def PolicyAuthority : String := "Weaviate"

/-- Weaviate filter of `check_policy_constraints`:
domain equals "HR", applies_to equals the workflow, roles contains the
role. -/
def matchesHRPolicy (workflow role : String) (r : HRPolicyRecord) : Bool :=
  r.domain == "HR" && r.applies_to == workflow && r.roles.contains role

/-- `check_policy_constraints(workflow, role)` from src/policy_engine.py,
parametrised by the list `store` of HRPolicy records the Weaviate store
holds; `fetch_objects` with the source filter is the filter over `store`
in store order. -/
def check_policy_constraints (store : List HRPolicyRecord)
    (workflow role : String) : PolicyConstraintResult :=
  let objects := store.filter (matchesHRPolicy workflow role)
  if objects.isEmpty then
    { severity := "ALLOW", policies := [] }
  else
    let severities := objects.map (fun o => o.severity)
    let policies := objects.map (fun o => o.policy_text)
    if severities.contains "BLOCK" then
      { severity := "BLOCK", policies := policies }
    else if severities.contains "REQUIRE_APPROVAL" then
      { severity := "REQUIRE_APPROVAL", policies := policies }
    else
      { severity := "ALLOW", policies := policies }

/-- Weaviate filter of `get_approval_requirement`: exact equality on
domain, workflow, action and requested_by_role. -/
def matchesApprovalPolicy (domain workflow action role : String)
    (r : ApprovalPolicyRecord) : Bool :=
  r.domain == domain && r.workflow == workflow &&
    r.action == action && r.requested_by_role == role

/-- `get_approval_requirement(domain, workflow, action, role)` from
src/approval_engine.py, parametrised by the list `store` of ApprovalPolicy
records the Weaviate store holds. -/
def get_approval_requirement (store : List ApprovalPolicyRecord)
    (domain workflow action role : String) : ApprovalRequirement :=
  let objects := store.filter (matchesApprovalPolicy domain workflow action role)
  match objects with
  | [] =>
      { approval_required := false
        auto_approve := true
        approver_roles := none
        approval_level := none
        escalation_role := none }
  | policy :: _ =>
      { approval_required := true
        auto_approve := policy.auto_approve
        approver_roles := some policy.approver_roles
        approval_level := some policy.approval_level
        escalation_role := some policy.escalation_role }

/-- `governance_decision(current_state, next_state, role, workflow)` from
src/decision_resolver.py, parametrised by its three collaborators (the
source imports them; here they are arguments so that claims quantifying
over collaborator behaviour can be stated). -/
def governance_decision
    (check_process_legality : String → String → String → ProcessLegalityResult)
    (check_policy : String → String → PolicyConstraintResult)
    (get_approval : String → String → String → String → ApprovalRequirement)
    (current_state next_state role workflow : String) : GovernanceVerdict :=
  -- 1. Process legality (NebulaGraph)
  let process := check_process_legality current_state next_state role
  if !process.valid then
    { verdict := "BLOCKED"
      reason := Reason.str process.reason
      authority := "NebulaGraph"
      approval := none }
  else
    -- 2. Policy constraints (Weaviate - HRPolicy)
    let policy := check_policy workflow role
    if policy.severity == "BLOCK" then
      { verdict := "BLOCKED"
        reason := Reason.list policy.policies
        authority := "Weaviate"
        approval := none }
    -- 3. Approval handling
    else if policy.severity == "REQUIRE_APPROVAL" || process.approval_required then
      let approval := get_approval "HR" workflow next_state role
      { verdict := "NEEDS_APPROVAL"
        reason := Reason.list policy.policies
        authority := "GovernanceLayer"
        approval := some approval }
    -- 4. Fully allowed
    else
      { verdict := "ALLOWED"
        reason := Reason.str "Process and policy compliant"
        authority := "GovernanceLayer"
        approval := none }

/-- A record of one collaborator call made during an evaluation, with the
arguments it was called with. -/
inductive CollabCall where
  | processCall (current_state next_state role : String)
  | policyCall (workflow role : String)
  | approvalCall (domain workflow action role : String)
deriving Repr, DecidableEq

/-- `governance_decision` instrumented with the list of collaborator calls
it performs, in order; the Python code is strict, so a collaborator is
invoked exactly when control reaches its call site. -/
def governance_decision_traced
    (check_process_legality : String → String → String → ProcessLegalityResult)
    (check_policy : String → String → PolicyConstraintResult)
    (get_approval : String → String → String → String → ApprovalRequirement)
    (current_state next_state role workflow : String) :
    GovernanceVerdict × List CollabCall :=
  let process := check_process_legality current_state next_state role
  let trace1 := [CollabCall.processCall current_state next_state role]
  if !process.valid then
    ({ verdict := "BLOCKED"
       reason := Reason.str process.reason
       authority := "NebulaGraph"
       approval := none }, trace1)
  else
    let policy := check_policy workflow role
    let trace2 := trace1 ++ [CollabCall.policyCall workflow role]
    if policy.severity == "BLOCK" then
      ({ verdict := "BLOCKED"
         reason := Reason.list policy.policies
         authority := "Weaviate"
         approval := none }, trace2)
    else if policy.severity == "REQUIRE_APPROVAL" || process.approval_required then
      let approval := get_approval "HR" workflow next_state role
      let trace3 := trace2 ++ [CollabCall.approvalCall "HR" workflow next_state role]
      ({ verdict := "NEEDS_APPROVAL"
         reason := Reason.list policy.policies
         authority := "GovernanceLayer"
         approval := some approval }, trace3)
    else
      ({ verdict := "ALLOWED"
         reason := Reason.str "Process and policy compliant"
         authority := "GovernanceLayer"
         approval := none }, trace2)

/-- Infrastructure failure of a collaborator call, e.g. the policy store
being unreachable (spec section 4.2: StoreUnavailable). -/
inductive CollabError where
  | storeUnavailable (message : String)
deriving Repr, DecidableEq

/-- `governance_decision` over fallible collaborators: each collaborator
may fail, and the Python exception semantics is that a raised error
propagates out of `governance_decision` unchanged (the source has no
try/except). -/
def governance_decision_exc
    (check_process_legality :
      String → String → String → Except CollabError ProcessLegalityResult)
    (check_policy : String → String → Except CollabError PolicyConstraintResult)
    (get_approval :
      String → String → String → String → Except CollabError ApprovalRequirement) :
    String → String → String → String → Except CollabError GovernanceVerdict :=
  fun current_state next_state role workflow =>
    match check_process_legality current_state next_state role with
    | Except.error e => Except.error e
    | Except.ok process =>
      if !process.valid then
        Except.ok { verdict := "BLOCKED"
                    reason := Reason.str process.reason
                    authority := "NebulaGraph"
                    approval := none }
      else
        match check_policy workflow role with
        | Except.error e => Except.error e
        | Except.ok policy =>
          if policy.severity == "BLOCK" then
            Except.ok { verdict := "BLOCKED"
                        reason := Reason.list policy.policies
                        authority := "Weaviate"
                        approval := none }
          else if policy.severity == "REQUIRE_APPROVAL" || process.approval_required then
            match get_approval "HR" workflow next_state role with
            | Except.error e => Except.error e
            | Except.ok approval =>
              Except.ok { verdict := "NEEDS_APPROVAL"
                          reason := Reason.list policy.policies
                          authority := "GovernanceLayer"
                          approval := some approval }
          else
            Except.ok { verdict := "ALLOWED"
                        reason := Reason.str "Process and policy compliant"
                        authority := "GovernanceLayer"
                        approval := none }

/-- Non-emptiness of a verdict reason: a non-empty string or a non-empty
list of policy texts. -/
def reasonNonempty : Reason → Prop
  | Reason.str s => s ≠ ""
  | Reason.list l => l ≠ []

instance : DecidablePred reasonNonempty := by
  intro r
  cases r with
  | str s => exact inferInstanceAs (Decidable (s ≠ ""))
  | list l => exact inferInstanceAs (Decidable (l ≠ []))

/-! ### Helper lemmas shared by the claim proofs -/

lemma check_policy_constraints_of_no_match (store : List HRPolicyRecord)
    (wf role : String) (h : store.filter (matchesHRPolicy wf role) = []) :
    check_policy_constraints store wf role = { severity := "ALLOW", policies := [] } := by
  simp [check_policy_constraints, h]

lemma contains_map_eq_any (l : List HRPolicyRecord) (s : String) :
    (l.map (fun o => o.severity)).contains s = l.any (fun r => r.severity == s) := by
  induction l with
  | nil => rfl
  | cons hd tl ih =>
      rw [List.map_cons, List.contains_cons, List.any_cons, ih, Bool.beq_comm]

/-- C1: if the process-legality collaborator reports an invalid transition,
the resolver returns BLOCKED with the collaborator's reason and the process
authority, and the collaborator trace shows that neither the policy
evaluator nor the approval resolver was invoked. -/
theorem governance_blocks_on_invalid_process
    (proc : String → String → String → ProcessLegalityResult)
    (pol : String → String → PolicyConstraintResult)
    (appr : String → String → String → String → ApprovalRequirement)
    (cs ns role wf : String)
    (h : (proc cs ns role).valid = false) :
    governance_decision proc pol appr cs ns role wf =
      { verdict := "BLOCKED"
        reason := Reason.str (proc cs ns role).reason
        authority := ProcessAuthority
        approval := none } ∧
    (governance_decision_traced proc pol appr cs ns role wf).2 =
      [CollabCall.processCall cs ns role] := by
  constructor
  · simp [governance_decision, ProcessAuthority, h]
  · simp [governance_decision_traced, h]

theorem governance_blocks_on_invalid_process_witness :
    governance_decision
      (fun _ _ _ => { valid := false, approval_required := false, reason := "No such transition" })
      (fun _ _ => { severity := "BLOCK", policies := ["should never be seen"] })
      (fun _ _ _ _ => { approval_required := false, auto_approve := true,
                        approver_roles := none, approval_level := none,
                        escalation_role := none })
      "OfferMade" "OfferAccepted" "HR_EXECUTIVE" "Hiring" =
      { verdict := "BLOCKED"
        reason := Reason.str "No such transition"
        authority := ProcessAuthority
        approval := none } :=
  (governance_blocks_on_invalid_process _ _ _ "OfferMade" "OfferAccepted"
    "HR_EXECUTIVE" "Hiring" rfl).1

/-- C2: if the transition is process-legal but the policy evaluator reduces
to BLOCK, the resolver returns BLOCKED with the full policies list as the
reason and the policy authority. -/
theorem governance_blocks_on_policy_block
    (proc : String → String → String → ProcessLegalityResult)
    (pol : String → String → PolicyConstraintResult)
    (appr : String → String → String → String → ApprovalRequirement)
    (cs ns role wf : String)
    (hv : (proc cs ns role).valid = true)
    (hs : (pol wf role).severity = "BLOCK") :
    governance_decision proc pol appr cs ns role wf =
      { verdict := "BLOCKED"
        reason := Reason.list (pol wf role).policies
        authority := PolicyAuthority
        approval := none } := by
  simp [governance_decision, PolicyAuthority, hv, hs]

theorem governance_blocks_on_policy_block_witness :
    governance_decision
      (fun _ _ _ => { valid := true, approval_required := false, reason := "ok" })
      (fun _ _ => { severity := "BLOCK", policies := ["No offers during freeze"] })
      (fun _ _ _ _ => { approval_required := false, auto_approve := true,
                        approver_roles := none, approval_level := none,
                        escalation_role := none })
      "OfferMade" "OfferAccepted" "HR_EXECUTIVE" "Hiring" =
      { verdict := "BLOCKED"
        reason := Reason.list ["No offers during freeze"]
        authority := PolicyAuthority
        approval := none } :=
  governance_blocks_on_policy_block _ _ _ "OfferMade" "OfferAccepted"
    "HR_EXECUTIVE" "Hiring" rfl rfl

/-- C3: if the transition is process-legal, policy severity is not BLOCK,
and either the policy severity is REQUIRE_APPROVAL or the legality result
requires approval, the resolver calls the approval resolver with domain
"HR", the workflow, the next state as the action, and the role, and
returns NEEDS_APPROVAL carrying the policies list, the approval result and
the GovernanceLayer authority; the trace records the approval call with
exactly those arguments. -/
theorem governance_needs_approval
    (proc : String → String → String → ProcessLegalityResult)
    (pol : String → String → PolicyConstraintResult)
    (appr : String → String → String → String → ApprovalRequirement)
    (cs ns role wf : String)
    (hv : (proc cs ns role).valid = true)
    (hnb : (pol wf role).severity ≠ "BLOCK")
    (hreq : (pol wf role).severity = "REQUIRE_APPROVAL" ∨
      (proc cs ns role).approval_required = true) :
    governance_decision proc pol appr cs ns role wf =
      { verdict := "NEEDS_APPROVAL"
        reason := Reason.list (pol wf role).policies
        authority := "GovernanceLayer"
        approval := some (appr "HR" wf ns role) } ∧
    (governance_decision_traced proc pol appr cs ns role wf).2 =
      [CollabCall.processCall cs ns role, CollabCall.policyCall wf role,
        CollabCall.approvalCall "HR" wf ns role] := by
  have hcond : ((pol wf role).severity == "REQUIRE_APPROVAL" ||
      (proc cs ns role).approval_required) = true := by
    rcases hreq with h | h
    · simp [h]
    · simp [h]
  constructor
  · simp [governance_decision, hv, hnb, hcond]
  · simp [governance_decision_traced, hv, hnb, hcond]

theorem governance_needs_approval_witness :
    governance_decision
      (fun _ _ _ => { valid := true, approval_required := false, reason := "ok" })
      (fun _ _ => { severity := "REQUIRE_APPROVAL", policies := ["Manager signoff"] })
      (fun d w a r => { approval_required := true, auto_approve := false,
                        approver_roles := some ["HR_MANAGER"],
                        approval_level := some 1,
                        escalation_role := some (d ++ w ++ a ++ r) })
      "OfferMade" "OfferAccepted" "HR_EXECUTIVE" "Hiring" =
      { verdict := "NEEDS_APPROVAL"
        reason := Reason.list ["Manager signoff"]
        authority := "GovernanceLayer"
        approval := some { approval_required := true, auto_approve := false,
                           approver_roles := some ["HR_MANAGER"],
                           approval_level := some 1,
                           escalation_role :=
                             some "HRHiringOfferAcceptedHR_EXECUTIVE" } } :=
  ((governance_needs_approval _ _ _ "OfferMade" "OfferAccepted" "HR_EXECUTIVE"
    "Hiring" rfl (by decide) (Or.inl rfl)).1).trans rfl

/-- C4: if the transition is process-legal, no approval is required by
process rules, and the policy severity is ALLOW, the resolver returns
ALLOWED with the fixed compliance message and the GovernanceLayer
authority. -/
theorem governance_allows_when_compliant
    (proc : String → String → String → ProcessLegalityResult)
    (pol : String → String → PolicyConstraintResult)
    (appr : String → String → String → String → ApprovalRequirement)
    (cs ns role wf : String)
    (hv : (proc cs ns role).valid = true)
    (ha : (proc cs ns role).approval_required = false)
    (hs : (pol wf role).severity = "ALLOW") :
    governance_decision proc pol appr cs ns role wf =
      { verdict := "ALLOWED"
        reason := Reason.str "Process and policy compliant"
        authority := "GovernanceLayer"
        approval := none } := by
  simp [governance_decision, hv, ha, hs]

theorem governance_allows_when_compliant_witness :
    governance_decision
      (fun _ _ _ => { valid := true, approval_required := false, reason := "ok" })
      (fun _ _ => { severity := "ALLOW", policies := [] })
      (fun _ _ _ _ => { approval_required := false, auto_approve := true,
                        approver_roles := none, approval_level := none,
                        escalation_role := none })
      "OfferMade" "OfferAccepted" "HR_EXECUTIVE" "Hiring" =
      { verdict := "ALLOWED"
        reason := Reason.str "Process and policy compliant"
        authority := "GovernanceLayer"
        approval := none } :=
  governance_allows_when_compliant _ _ _ "OfferMade" "OfferAccepted"
    "HR_EXECUTIVE" "Hiring" rfl rfl rfl

/-- C5: `check_policy_constraints` collects the policy text of every
matched record in store order, reduces severity by the precedence
BLOCK then REQUIRE_APPROVAL then ALLOW over the matched records, and
returns ALLOW with an empty policies list when nothing matches. -/
theorem policy_reduction_precedence (store : List HRPolicyRecord)
    (wf role : String) :
    (check_policy_constraints store wf role).policies =
      (store.filter (matchesHRPolicy wf role)).map (fun r => r.policy_text) ∧
    (check_policy_constraints store wf role).severity =
      (if (store.filter (matchesHRPolicy wf role)).any
          (fun r => r.severity == "BLOCK") then "BLOCK"
        else if (store.filter (matchesHRPolicy wf role)).any
            (fun r => r.severity == "REQUIRE_APPROVAL") then "REQUIRE_APPROVAL"
        else "ALLOW") ∧
    (store.filter (matchesHRPolicy wf role) = [] →
      check_policy_constraints store wf role =
        { severity := "ALLOW", policies := [] }) := by
  have hdef : ∀ s : List HRPolicyRecord, check_policy_constraints s wf role =
      if (s.filter (matchesHRPolicy wf role)).isEmpty then
        { severity := "ALLOW", policies := [] }
      else if ((s.filter (matchesHRPolicy wf role)).map
          (fun o => o.severity)).contains "BLOCK" then
        { severity := "BLOCK", policies := (s.filter (matchesHRPolicy wf role)).map
            (fun o => o.policy_text) }
      else if ((s.filter (matchesHRPolicy wf role)).map
          (fun o => o.severity)).contains "REQUIRE_APPROVAL" then
        { severity := "REQUIRE_APPROVAL",
          policies := (s.filter (matchesHRPolicy wf role)).map
            (fun o => o.policy_text) }
      else
        { severity := "ALLOW", policies := (s.filter (matchesHRPolicy wf role)).map
            (fun o => o.policy_text) } := fun _ => rfl
  rcases hobj : store.filter (matchesHRPolicy wf role) with _ | ⟨hd, tl⟩
  · refine ⟨?_, ?_, fun _ => ?_⟩ <;> simp [hdef, hobj]
  · refine ⟨?_, ?_, fun hnil => ?_⟩
    · rw [hdef, hobj]
      simp only [List.isEmpty_cons, Bool.false_eq_true, if_false]
      split
      · rfl
      · split <;> rfl
    · rw [hdef, hobj]
      simp only [List.isEmpty_cons, Bool.false_eq_true, if_false, contains_map_eq_any]
      split
      · rfl
      · split <;> rfl
    · exact absurd hnil (by simp)

theorem policy_reduction_precedence_witness :
    check_policy_constraints [] "Hiring" "HR_EXECUTIVE" =
      { severity := "ALLOW", policies := [] } :=
  (policy_reduction_precedence [] "Hiring" "HR_EXECUTIVE").2.2 rfl

/-- C6: `get_approval_requirement` matches approval-policy records by
exact equality on domain, workflow, action and requested_by_role; zero
matches yields no approval required with auto-approve, and one or more
matches yields approval required with the first matched record's fields
passed through verbatim. -/
theorem approval_requirement_lookup (store : List ApprovalPolicyRecord)
    (domain wf action role : String) :
    (∀ r : ApprovalPolicyRecord,
      matchesApprovalPolicy domain wf action role r = true ↔
        r.domain = domain ∧ r.workflow = wf ∧ r.action = action ∧
          r.requested_by_role = role) ∧
    (store.filter (matchesApprovalPolicy domain wf action role) = [] →
      get_approval_requirement store domain wf action role =
        { approval_required := false, auto_approve := true,
          approver_roles := none, approval_level := none,
          escalation_role := none }) ∧
    (∀ p rest, store.filter (matchesApprovalPolicy domain wf action role) =
        p :: rest →
      get_approval_requirement store domain wf action role =
        { approval_required := true, auto_approve := p.auto_approve,
          approver_roles := some p.approver_roles,
          approval_level := some p.approval_level,
          escalation_role := some p.escalation_role }) := by
  refine ⟨?_, ?_, ?_⟩
  · intro r
    simp [matchesApprovalPolicy, and_assoc]
  · intro h
    simp [get_approval_requirement, h]
  · intro p rest h
    simp [get_approval_requirement, h]

theorem approval_requirement_lookup_witness :
    get_approval_requirement
      [{ domain := "HR", workflow := "Hiring", action := "OfferAccepted",
         requested_by_role := "HR_EXECUTIVE",
         approver_roles := ["HR_MANAGER"], approval_level := 1,
         auto_approve := false, escalation_role := "HR_DIRECTOR" }]
      "HR" "Hiring" "OfferAccepted" "HR_EXECUTIVE" =
      { approval_required := true, auto_approve := false,
        approver_roles := some ["HR_MANAGER"], approval_level := some 1,
        escalation_role := some "HR_DIRECTOR" } :=
  (approval_requirement_lookup _ "HR" "Hiring" "OfferAccepted"
    "HR_EXECUTIVE").2.2
    { domain := "HR", workflow := "Hiring", action := "OfferAccepted",
      requested_by_role := "HR_EXECUTIVE",
      approver_roles := ["HR_MANAGER"], approval_level := 1,
      auto_approve := false, escalation_role := "HR_DIRECTOR" } []
    (by decide)

/-- C7: under the collaborator invariants (a legality result with
valid false has a non-empty reason; a policy result with an empty policies
list has severity ALLOW), every BLOCKED verdict the resolver returns
carries a non-empty reason. -/
theorem blocked_verdict_reason_nonempty
    (proc : String → String → String → ProcessLegalityResult)
    (pol : String → String → PolicyConstraintResult)
    (appr : String → String → String → String → ApprovalRequirement)
    (cs ns role wf : String)
    (hproc : (proc cs ns role).valid = false → (proc cs ns role).reason ≠ "")
    (hpol : (pol wf role).policies = [] → (pol wf role).severity = "ALLOW")
    (hb : (governance_decision proc pol appr cs ns role wf).verdict = "BLOCKED") :
    reasonNonempty (governance_decision proc pol appr cs ns role wf).reason := by
  cases hv : (proc cs ns role).valid with
  | false =>
      simpa [governance_decision, hv, reasonNonempty] using hproc hv
  | true =>
      by_cases hs : (pol wf role).severity = "BLOCK"
      · have hne : (pol wf role).policies ≠ [] := by
          intro hempty
          exact absurd (hs.symm.trans (hpol hempty)) (by decide)
        simpa [governance_decision, hv, hs, reasonNonempty] using hne
      · exfalso
        by_cases hc : ((pol wf role).severity == "REQUIRE_APPROVAL" ||
            (proc cs ns role).approval_required) = true
        · have hverd : (governance_decision proc pol appr cs ns role wf).verdict =
              "NEEDS_APPROVAL" := by
            simp [governance_decision, hv, hs, hc]
          rw [hverd] at hb
          exact absurd hb (by decide)
        · have hverd : (governance_decision proc pol appr cs ns role wf).verdict =
              "ALLOWED" := by
            simp [governance_decision, hv, hs, hc]
          rw [hverd] at hb
          exact absurd hb (by decide)

theorem blocked_verdict_reason_nonempty_witness :
    reasonNonempty
      (governance_decision
        (fun _ _ _ => { valid := false, approval_required := false,
                        reason := "Transition not in graph" })
        (fun _ _ => { severity := "ALLOW", policies := [] })
        (fun _ _ _ _ => { approval_required := false, auto_approve := true,
                          approver_roles := none, approval_level := none,
                          escalation_role := none })
        "OfferMade" "OfferAccepted" "HR_EXECUTIVE" "Hiring").reason :=
  blocked_verdict_reason_nonempty _ _ _ "OfferMade" "OfferAccepted"
    "HR_EXECUTIVE" "Hiring" (fun _ => by decide) (fun _ => rfl) rfl

/-- C8: a collaborator failure propagates out of the resolver unchanged:
whichever of the three collaborator calls is the first to fail on the path
actually taken, the resolver's result is that same error, never a
verdict. -/
theorem collaborator_failure_propagates
    (proc : String → String → String → Except CollabError ProcessLegalityResult)
    (pol : String → String → Except CollabError PolicyConstraintResult)
    (appr : String → String → String → String → Except CollabError ApprovalRequirement)
    (cs ns role wf : String) (e : CollabError) :
    (proc cs ns role = Except.error e →
      governance_decision_exc proc pol appr cs ns role wf = Except.error e) ∧
    (∀ p, proc cs ns role = Except.ok p → p.valid = true →
      pol wf role = Except.error e →
      governance_decision_exc proc pol appr cs ns role wf = Except.error e) ∧
    (∀ p q, proc cs ns role = Except.ok p → p.valid = true →
      pol wf role = Except.ok q → q.severity ≠ "BLOCK" →
      (q.severity = "REQUIRE_APPROVAL" ∨ p.approval_required = true) →
      appr "HR" wf ns role = Except.error e →
      governance_decision_exc proc pol appr cs ns role wf = Except.error e) := by
  refine ⟨?_, ?_, ?_⟩
  · intro h
    simp [governance_decision_exc, h]
  · intro p hp hv hq
    simp [governance_decision_exc, hp, hv, hq]
  · intro p q hp hv hq hnb hreq happr
    have hcond : (q.severity == "REQUIRE_APPROVAL" || p.approval_required) = true := by
      rcases hreq with h | h
      · simp [h]
      · simp [h]
    simp [governance_decision_exc, hp, hv, hq, hnb, hcond, happr]

theorem collaborator_failure_propagates_witness :
    governance_decision_exc
      (fun _ _ _ => Except.ok { valid := true, approval_required := false,
                                reason := "ok" })
      (fun _ _ => Except.error (CollabError.storeUnavailable "policy store down"))
      (fun _ _ _ _ => Except.ok { approval_required := false, auto_approve := true,
                                  approver_roles := none, approval_level := none,
                                  escalation_role := none })
      "OfferMade" "OfferAccepted" "HR_EXECUTIVE" "Hiring" =
      Except.error (CollabError.storeUnavailable "policy store down") :=
  (collaborator_failure_propagates _ _ _ "OfferMade" "OfferAccepted"
    "HR_EXECUTIVE" "Hiring" (CollabError.storeUnavailable "policy store down")).2.1
    { valid := true, approval_required := false, reason := "ok" } rfl rfl rfl

/-- C9: the resolver is a pure function of its inputs and the collaborator
responses: two evaluations whose collaborators return identical results on
every input produce identical verdicts. -/
theorem resolver_deterministic
    (proc1 proc2 : String → String → String → ProcessLegalityResult)
    (pol1 pol2 : String → String → PolicyConstraintResult)
    (appr1 appr2 : String → String → String → String → ApprovalRequirement)
    (cs ns role wf : String)
    (hp : ∀ a b c, proc1 a b c = proc2 a b c)
    (hq : ∀ a b, pol1 a b = pol2 a b)
    (ha : ∀ a b c d, appr1 a b c d = appr2 a b c d) :
    governance_decision proc1 pol1 appr1 cs ns role wf =
      governance_decision proc2 pol2 appr2 cs ns role wf := by
  simp only [governance_decision, hp, hq, ha]

theorem resolver_deterministic_witness :
    governance_decision
      (fun _ _ _ => { valid := true, approval_required := false, reason := "ok" })
      (fun _ _ => { severity := "ALLOW", policies := [] })
      (fun _ _ _ _ => { approval_required := false, auto_approve := true,
                        approver_roles := none, approval_level := none,
                        escalation_role := none })
      "OfferMade" "OfferAccepted" "HR_EXECUTIVE" "Hiring" =
    governance_decision
      (fun _ _ _ => { valid := true, approval_required := false,
                      reason := String.append "" "ok" })
      (fun _ _ => { severity := String.append "ALL" "OW", policies := [] })
      (fun _ _ _ _ => { approval_required := false, auto_approve := true,
                        approver_roles := none, approval_level := none,
                        escalation_role := none })
      "OfferMade" "OfferAccepted" "HR_EXECUTIVE" "Hiring" :=
  resolver_deterministic _ _ _ _ _ _ "OfferMade" "OfferAccepted" "HR_EXECUTIVE"
    "Hiring" (fun _ _ _ => by decide) (fun _ _ => by decide) (fun _ _ _ _ => rfl)

/-- C10: when the NEEDS_APPROVAL branch is reached solely through the
legality result's approval_required flag while the policy evaluator
matched zero records, the verdict's reason is the empty policies list, so
a NEEDS_APPROVAL verdict is not guaranteed a non-empty reason. -/
theorem needs_approval_can_have_empty_reason
    (proc : String → String → String → ProcessLegalityResult)
    (appr : String → String → String → String → ApprovalRequirement)
    (store : List HRPolicyRecord) (cs ns role wf : String)
    (hv : (proc cs ns role).valid = true)
    (ha : (proc cs ns role).approval_required = true)
    (hmatch : store.filter (matchesHRPolicy wf role) = []) :
    governance_decision proc (check_policy_constraints store) appr cs ns role wf =
      { verdict := "NEEDS_APPROVAL"
        reason := Reason.list []
        authority := "GovernanceLayer"
        approval := some (appr "HR" wf ns role) } ∧
    ¬ reasonNonempty
      (governance_decision proc (check_policy_constraints store) appr
        cs ns role wf).reason := by
  have hpol := check_policy_constraints_of_no_match store wf role hmatch
  refine ⟨?_, ?_⟩
  · simp [governance_decision, hv, ha, hpol]
  · simp [governance_decision, hv, ha, hpol, reasonNonempty]

theorem needs_approval_can_have_empty_reason_witness :
    governance_decision
      (fun _ _ _ => { valid := true, approval_required := true, reason := "ok" })
      (check_policy_constraints [])
      (fun _ _ _ _ => { approval_required := false, auto_approve := true,
                        approver_roles := none, approval_level := none,
                        escalation_role := none })
      "OfferMade" "OfferAccepted" "HR_EXECUTIVE" "Hiring" =
      { verdict := "NEEDS_APPROVAL"
        reason := Reason.list []
        authority := "GovernanceLayer"
        approval := some { approval_required := false, auto_approve := true,
                           approver_roles := none, approval_level := none,
                           escalation_role := none } } :=
  (needs_approval_can_have_empty_reason _ _ [] "OfferMade" "OfferAccepted"
    "HR_EXECUTIVE" "Hiring" rfl rfl rfl).1
